import Mathlib

/-!
Verification of the lf-trace-xronos tracepoint-to-span adapter.

This file shallowly embeds the core of src/src/trace_impl.c and
src/src/otel_backend.c: the object-description registry, the attribute
schema builders, the per-worker-thread span lifecycle state machine with
its event filter, and the exporter endpoint security policy.  C pointers
are modelled as natural numbers with 0 standing for NULL, C strings as
Option String (none standing for a NULL char pointer), and machine
integers as Int with explicit two's-complement wrapping where the code
casts or subtracts.
-/

namespace LfTraceXronos

/-- Two's-complement wrap of a mathematical integer into signed 64-bit range,
as the C int64_t arithmetic in trace_impl.c produces. -/
def int64Wrap (n : Int) : Int :=
  (n + 2 ^ 63) % 2 ^ 64 - 2 ^ 63

/-- Wrap of a mathematical integer into unsigned 32-bit range, as the
cast (uint32_t)tr->microstep in set_common_high_cardinality_attributes does. -/
def uint32Wrap (n : Int) : Nat :=
  (n % 2 ^ 32).toNat

/-- An object description registered in the trace object table
(object_description_t from the runtime, restricted to the two fields the
adapter reads: the identity pointer and the description string). -/
structure ObjectDescription where
  pointer : Nat
  description : Option String
deriving DecidableEq, Repr

/-- A trace record (trace_record_nodeps_t), restricted to the fields
lf_tracing_tracepoint reads: event_type, pointer (the subject),
dst_id (the reaction index), logical_time, microstep, physical_time. -/
structure trace_record_nodeps_t where
  event_type : Int
  pointer : Nat
  dst_id : Int
  logical_time : Int
  microstep : Int
  physical_time : Int
deriving DecidableEq, Repr

/-- Modelled from the spec: the runtime's trace event enum (trace_types.h is
part of the LF runtime, not of this repository).  The adapter relies only on
reaction_starts and reaction_ends being distinct enumerators; they are the
first two members of the enum. -/
def reaction_starts : Int := 0

/-- Modelled from the spec: second member of the runtime's trace event enum. -/
def reaction_ends : Int := 1

/-- Modelled from the spec: the runtime's trace_event_names table
(trace_types.h), one human-readable label per event kind; NUM_EVENT_TYPES is
its length.  The concrete labels do not matter to the adapter, so theorems
about event-name lookup quantify over an arbitrary table. -/
def trace_event_names : List String :=
  ["Reaction starts", "Reaction ends", "Reaction deadline missed", "Schedule called"]

/-- Attribute values the adapter stores into an otelc attribute map. -/
inductive AttrValue where
  | i64 (v : Int)
  | u32 (v : Nat)
  | str (s : String)
  | strList (l : List String)
deriving DecidableEq, Repr

/-- An otelc attribute map, as the ordered list of key/value pairs the
adapter sets on it. -/
abbrev AttrMap := List (String × AttrValue)

/-- The keys of an attribute map, in insertion order. -/
def attrKeys (m : AttrMap) : List String :=
  m.map Prod.fst

/-- Look up the value set for a key in an attribute map. -/
def attrLookup (m : AttrMap) (k : String) : Option AttrValue :=
  (List.find? (fun p => p.fst == k) m).map Prod.snd

/-- The high-cardinality attribute batch built by
set_common_high_cardinality_attributes: timestamp (the logical time),
microstep cast to uint32, and lag computed as physical_time minus
logical_time in int64 arithmetic, unclamped. -/
def set_common_high_cardinality_attributes (tr : trace_record_nodeps_t) : AttrMap :=
  [("xronos.timestamp", AttrValue.i64 tr.logical_time),
   ("xronos.microstep", AttrValue.u32 (uint32Wrap tr.microstep)),
   ("xronos.lag", AttrValue.i64 (int64Wrap (tr.physical_time - tr.logical_time)))]

/-- The key list written under xronos.schema.low_cardinality_attributes by
set_low_cardinality_schema_attr, selected from the two flags exactly as the
static tables kLowCardBase / kLowCardWithDescNoContainer /
kLowCardWithDescWithContainer are. -/
def set_low_cardinality_schema_attr (has_description has_container_fqn : Bool) : List String :=
  if has_description then
    if has_container_fqn then
      ["xronos.element_type", "xronos.fqn", "xronos.name", "xronos.container_fqn"]
    else
      ["xronos.element_type", "xronos.fqn", "xronos.name"]
  else
    ["xronos.element_type"]

/-- build_reaction_fqn: "<reactor_fqn>.<reaction_number>" when the reactor
description is present and non-empty and the reaction number is
non-negative, none otherwise (the NULL return).  snprintf with "%s.%d" is
modelled by string append with the decimal rendering of the number. -/
def build_reaction_fqn (reactor_desc : Option ObjectDescription) (reaction_number : Int) :
    Option String :=
  match reactor_desc with
  | none => none
  | some d =>
    match d.description with
    | none => none
    | some s =>
      if s = "" then none
      else if reaction_number < 0 then none
      else some (s ++ "." ++ toString reaction_number)

/-- The span display name chosen by lf_tracing_tracepoint for a
reaction_starts record: the reaction FQN when build_reaction_fqn produced
one, else the bare reactor description when present and non-empty, else the
literal "reaction". -/
def reaction_span_name (reactor_desc : Option ObjectDescription)
    (reaction_fqn : Option String) : String :=
  match reaction_fqn with
  | some f => f
  | none =>
    match reactor_desc with
    | some d =>
      match d.description with
      | some s => if s = "" then "reaction" else s
      | none => "reaction"
    | none => "reaction"

/-- The low-cardinality attribute batch built by
set_reaction_low_cardinality_attributes: always element_type "reaction";
fqn and name (the reaction number rendered in decimal) only when a reaction
FQN exists; container_fqn only when additionally the reactor description is
present and non-empty; finally the self-describing schema key list. -/
def set_reaction_low_cardinality_attributes (reaction_fqn : Option String)
    (reaction_number : Int) (reactor_fqn : Option String) : AttrMap :=
  let base : AttrMap := [("xronos.element_type", AttrValue.str "reaction")]
  let has_description : Bool := reaction_fqn.isSome
  let has_container_fqn : Bool :=
    match reaction_fqn, reactor_fqn with
    | some _, some r => !(r == "")
    | _, _ => false
  let withDesc : AttrMap :=
    match reaction_fqn with
    | some f =>
      [("xronos.fqn", AttrValue.str f),
       ("xronos.name", AttrValue.str (toString reaction_number))] ++
      (match reactor_fqn with
       | some r => if r = "" then [] else [("xronos.container_fqn", AttrValue.str r)]
       | none => [])
    | none => []
  base ++ withDesc ++
    [("xronos.schema.low_cardinality_attributes",
      AttrValue.strList (set_low_cardinality_schema_attr has_description has_container_fqn))]

/-- The low-cardinality attribute batch built by
set_event_low_cardinality_attributes for a generic (non-reaction) event
span: element_type "trace_event" and the baseline schema key list. -/
def set_event_low_cardinality_attributes : AttrMap :=
  [("xronos.element_type", AttrValue.str "trace_event"),
   ("xronos.schema.low_cardinality_attributes",
    AttrValue.strList (set_low_cardinality_schema_attr false false))]

/-- find_object_description: linear scan of the trace object table for the
first entry whose pointer matches; NULL pointers are rejected up front. -/
def find_object_description (table : List ObjectDescription) (pointer : Nat) :
    Option ObjectDescription :=
  if pointer = 0 then none
  else List.find? (fun d => d.pointer == pointer) table

/-- TRACE_OBJECT_TABLE_SIZE: the bounded capacity of the trace object table.
The constant is defined in the runtime's trace_impl.h; the theorems below
depend only on it being a fixed positive bound. -/
def TRACE_OBJECT_TABLE_SIZE : Nat := 1024

/-- lf_tracing_register_trace_event: append the description to the table
when below capacity, silently drop it otherwise. -/
def lf_tracing_register_trace_event (table : List ObjectDescription)
    (description : ObjectDescription) : List ObjectDescription :=
  if table.length < TRACE_OBJECT_TABLE_SIZE then table ++ [description] else table

/-- get_event_type_name: the trace_event_names entry for in-range event
types, the literal "Unknown event" otherwise (names is the
trace_event_names table, whose length is NUM_EVENT_TYPES). -/
def get_event_type_name (names : List String) (event_type : Int) : String :=
  if 0 ≤ event_type ∧ event_type < names.length then
    names.getD event_type.toNat "Unknown event"
  else
    "Unknown event"

/-- A call into the tracer capability (the otelc interface), in the order
lf_tracing_tracepoint issues them.  Span handles are identified by the
number the model assigned when the span was started. -/
inductive TracerCall where
  | getTracer
  | startSpan (span : Nat) (name : String)
  | setAttrs (span : Nat) (attrs : AttrMap)
  | endSpan (span : Nat)
deriving DecidableEq, Repr

/-- The adapter state read and written by lf_tracing_tracepoint on one
worker thread: the process-wide filter flag and registry table, the cached
tracer handle, the thread-local active-span slot (span handle, subject
pointer, reaction index), and the model's fresh-span-handle counter. -/
structure TPState where
  trace_only_reactions : Bool
  table : List ObjectDescription
  tracer : Option Nat
  active_reaction_span : Option Nat
  active_reaction_pointer : Nat
  active_reaction_dst_id : Int
  nextSpanId : Nat
deriving DecidableEq, Repr

/-- One call of lf_tracing_tracepoint: the new state and the sequence of
tracer-capability calls issued, in program order.  otelc_get_tracer is
modelled as returning a fixed non-null handle.  The mutex taken on the
unmanaged-thread path guards concurrency only and does not change the
state modelled here. -/
def lf_tracing_tracepoint (s : TPState) (tr? : Option trace_record_nodeps_t) :
    TPState × List TracerCall :=
  let s1 := if s.tracer.isNone then { s with tracer := some 0 } else s
  let calls0 : List TracerCall := if s.tracer.isNone then [TracerCall.getTracer] else []
  match tr? with
  | none => (s1, calls0)
  | some tr =>
    if s1.trace_only_reactions = true ∧
        ¬(tr.event_type = reaction_starts ∨ tr.event_type = reaction_ends) then
      (s1, calls0)
    else if tr.event_type = reaction_ends then
      let endCalls : List TracerCall :=
        match s1.active_reaction_span with
        | some sp => [TracerCall.endSpan sp]
        | none => []
      ({ s1 with active_reaction_span := none, active_reaction_pointer := 0,
                 active_reaction_dst_id := -1 },
       calls0 ++ endCalls)
    else if tr.event_type = reaction_starts then
      let reactor_desc := find_object_description s1.table tr.pointer
      let reaction_fqn := build_reaction_fqn reactor_desc tr.dst_id
      let span_name := reaction_span_name reactor_desc reaction_fqn
      let sid := s1.nextSpanId
      let lowBatch := set_reaction_low_cardinality_attributes reaction_fqn tr.dst_id
        (reactor_desc.bind (fun d => d.description))
      let highBatch := set_common_high_cardinality_attributes tr
      let forceClose : List TracerCall :=
        match s1.active_reaction_span with
        | some sp => [TracerCall.endSpan sp]
        | none => []
      ({ s1 with active_reaction_span := some sid, active_reaction_pointer := tr.pointer,
                 active_reaction_dst_id := tr.dst_id, nextSpanId := sid + 1 },
       calls0 ++
         [TracerCall.startSpan sid span_name,
          TracerCall.setAttrs sid lowBatch,
          TracerCall.setAttrs sid highBatch] ++
         forceClose)
    else
      let sid := s1.nextSpanId
      ({ s1 with nextSpanId := sid + 1 },
       calls0 ++
         [TracerCall.startSpan sid (get_event_type_name trace_event_names tr.event_type),
          TracerCall.setAttrs sid set_event_low_cardinality_attributes,
          TracerCall.setAttrs sid (set_common_high_cardinality_attributes tr),
          TracerCall.endSpan sid])

/-- Process a sequence of tracepoints on one worker thread, collecting the
tracer-capability calls in order. -/
def runTrace (s : TPState) : List (Option trace_record_nodeps_t) → TPState × List TracerCall
  | [] => (s, [])
  | tr :: rest =>
    ((runTrace (lf_tracing_tracepoint s tr).1 rest).1,
     (lf_tracing_tracepoint s tr).2 ++ (runTrace (lf_tracing_tracepoint s tr).1 rest).2)

/-- Number of start-span capability calls in a call sequence. -/
def countStarts (calls : List TracerCall) : Nat :=
  calls.countP fun c => match c with | TracerCall.startSpan _ _ => true | _ => false

/-- Number of end-span capability calls in a call sequence. -/
def countEnds (calls : List TracerCall) : Nat :=
  calls.countP fun c => match c with | TracerCall.endSpan _ => true | _ => false

/-- 1 when the thread's slot holds an open span, 0 when it is Idle. -/
def openCount (s : TPState) : Nat :=
  if s.active_reaction_span.isSome then 1 else 0

/-- Call a occurs strictly before call b in the call sequence l. -/
def callPrecedes (a b : TracerCall) (l : List TracerCall) : Prop :=
  ∃ i : Fin l.length, ∃ j : Fin l.length, i.val < j.val ∧ l.get i = a ∧ l.get j = b

instance (a b : TracerCall) (l : List TracerCall) : Decidable (callPrecedes a b l) := by
  unfold callPrecedes
  infer_instance

/-- configure_exporter from otel_backend.c, returning the pair of
environment values it sets: OTEL_EXPORTER_OTLP_TRACES_ENDPOINT and
OTEL_EXPORTER_OTLP_TRACES_INSECURE ("false" exactly when the endpoint
starts with "https://", since strncmp over the 8 characters of the literal
is a prefix test); none models the early -1 return on a NULL endpoint. -/
def configure_exporter (endpoint : Option String) : Option (String × String) :=
  match endpoint with
  | none => none
  | some e =>
    let use_ssl : Bool := e.startsWith "https://"
    some (e, if use_ssl then "false" else "true")

/-! ## Arithmetic helpers -/

theorem int64Wrap_of_mem_range (n : Int) (h1 : -(2 ^ 63) ≤ n) (h2 : n < 2 ^ 63) :
    int64Wrap n = n := by
  unfold int64Wrap
  have e63 : (2 : Int) ^ 63 = 9223372036854775808 := by norm_num
  have e64 : (2 : Int) ^ 64 = 18446744073709551616 := by norm_num
  rw [e63, e64] at *
  omega

/-! ## Span lifecycle lemmas -/

/-- Each tracepoint call preserves the balance between started and ended
spans and the occupancy of the thread's slot: starts issued plus spans open
before equals ends issued plus spans open after. -/
theorem lf_tracing_tracepoint_delta (s : TPState) (tr? : Option trace_record_nodeps_t) :
    countStarts (lf_tracing_tracepoint s tr?).2 + openCount s =
      countEnds (lf_tracing_tracepoint s tr?).2 + openCount (lf_tracing_tracepoint s tr?).1 := by
  rcases tr? with _ | tr
  · by_cases ht : s.tracer.isNone <;>
      simp [lf_tracing_tracepoint, ht, countStarts, countEnds, openCount]
  · by_cases ht : s.tracer.isNone <;>
      by_cases hf : s.trace_only_reactions = true ∧
        ¬(tr.event_type = reaction_starts ∨ tr.event_type = reaction_ends) <;>
      by_cases hend : tr.event_type = reaction_ends <;>
      by_cases hstart : tr.event_type = reaction_starts <;>
      rcases hsp : s.active_reaction_span with _ | sp <;>
      simp_all [lf_tracing_tracepoint, countStarts, countEnds, openCount,
        reaction_starts, reaction_ends, List.countP_cons, List.countP_append]

/-- Over a whole tracepoint sequence, starts plus initially-open spans
equals ends plus finally-open spans. -/
theorem runTrace_delta (trs : List (Option trace_record_nodeps_t)) (s : TPState) :
    countStarts (runTrace s trs).2 + openCount s =
      countEnds (runTrace s trs).2 + openCount (runTrace s trs).1 := by
  induction trs generalizing s with
  | nil => simp [runTrace, countStarts, countEnds]
  | cons tr rest ih =>
    have h1 := lf_tracing_tracepoint_delta s tr
    have h2 := ih (lf_tracing_tracepoint s tr).1
    simp only [runTrace, countStarts, countEnds, List.countP_append] at *
    omega

/-- A reaction_ends tracepoint always leaves the thread's slot Idle. -/
theorem lf_tracing_tracepoint_ends_slot (s : TPState) (tr : trace_record_nodeps_t)
    (h : tr.event_type = reaction_ends) :
    (lf_tracing_tracepoint s (some tr)).1.active_reaction_span = none := by
  by_cases ht : s.tracer.isNone <;>
    rcases hsp : s.active_reaction_span with _ | sp <;>
    simp_all [lf_tracing_tracepoint, reaction_starts, reaction_ends]

/-- Running an appended sequence is running the pieces in order. -/
theorem runTrace_fst_append (a b : List (Option trace_record_nodeps_t)) (s : TPState) :
    (runTrace s (a ++ b)).1 = (runTrace (runTrace s a).1 b).1 := by
  induction a generalizing s with
  | nil => simp [runTrace]
  | cons tr rest ih => simp [runTrace, ih]

/-! ## Claim theorems -/

/-- Initial adapter state for the C1 witness: reaction-only mode, empty
registry, tracer initialized, slot Idle. -/
def c1State : TPState := ⟨true, [], some 0, none, 0, -1, 0⟩

/-- C1: over any tracepoint sequence on one worker thread that starts with
an Idle slot, the spans opened minus the spans closed (force-closes
included) lie in {0, 1} and are never negative — the sequence being
universally quantified, this holds after every processed prefix — and any
sequence extended by a matched reaction_starts / reaction_ends pair leaves
the slot Idle. -/
theorem C1_lifecycle (s0 : TPState) (h : s0.active_reaction_span = none)
    (trs : List (Option trace_record_nodeps_t)) :
    (countEnds (runTrace s0 trs).2 ≤ countStarts (runTrace s0 trs).2 ∧
      countStarts (runTrace s0 trs).2 ≤ countEnds (runTrace s0 trs).2 + 1) ∧
    (∀ r1 r2 : trace_record_nodeps_t,
      r1.event_type = reaction_starts → r2.event_type = reaction_ends →
      (runTrace s0 (trs ++ [some r1, some r2])).1.active_reaction_span = none) := by
  constructor
  · have hd := runTrace_delta trs s0
    have h0 : openCount s0 = 0 := by simp [openCount, h]
    have h1 : openCount (runTrace s0 trs).1 ≤ 1 := by
      unfold openCount
      split <;> omega
    omega
  · intro r1 r2 h1 h2
    rw [runTrace_fst_append]
    simp only [runTrace]
    exact lf_tracing_tracepoint_ends_slot _ r2 h2

/-- C1 (witness): a concrete start/start-end run from the Idle initial
state. -/
theorem C1_lifecycle_witness :
    (countEnds (runTrace c1State [some ⟨0, 1, 2, 100, 0, 105⟩]).2 ≤
       countStarts (runTrace c1State [some ⟨0, 1, 2, 100, 0, 105⟩]).2 ∧
     countStarts (runTrace c1State [some ⟨0, 1, 2, 100, 0, 105⟩]).2 ≤
       countEnds (runTrace c1State [some ⟨0, 1, 2, 100, 0, 105⟩]).2 + 1) ∧
    (runTrace c1State ([some ⟨0, 1, 2, 100, 0, 105⟩] ++
       [some ⟨0, 1, 2, 100, 0, 105⟩,
        some ⟨1, 1, 2, 100, 0, 106⟩])).1.active_reaction_span = none :=
  ⟨(C1_lifecycle c1State rfl [some ⟨0, 1, 2, 100, 0, 105⟩]).1,
   (C1_lifecycle c1State rfl [some ⟨0, 1, 2, 100, 0, 105⟩]).2
     ⟨0, 1, 2, 100, 0, 105⟩ ⟨1, 1, 2, 100, 0, 106⟩ rfl rfl⟩

/-- Adapter state for the C2 counterexample: a span with handle 5 is open,
the tracer is initialized, the next span handle is 7. -/
def c2State : TPState := ⟨true, [], some 0, some 5, 0, -1, 7⟩

/-- reaction_starts record for the C2 counterexample. -/
def c2Record : trace_record_nodeps_t := ⟨0, 0, 0, 0, 0, 0⟩

/-- C2 (counterexample): on a second reaction_starts while span 5 is open,
both the end of span 5 and the start of the new span 7 are issued, but the
end of the stale span does NOT precede the start of the new one in the
tracer-capability call sequence. -/
theorem C2_counterexample :
    TracerCall.endSpan 5 ∈ (lf_tracing_tracepoint c2State (some c2Record)).2 ∧
    TracerCall.startSpan 7 "reaction" ∈ (lf_tracing_tracepoint c2State (some c2Record)).2 ∧
    ¬ callPrecedes (TracerCall.endSpan 5) (TracerCall.startSpan 7 "reaction")
        (lf_tracing_tracepoint c2State (some c2Record)).2 := by
  decide

/-- C2 (amended): a reaction_starts while a span is open force-closes the
stale span within the same tracepoint call, but only after the new span has
been started and its attributes set — the capability-call order is
start-new, set-attributes, set-attributes, end-old — and the slot then
holds the new span. -/
theorem C2_force_close_after_open (s : TPState) (sp t0 : Nat)
    (tr : trace_record_nodeps_t)
    (hsp : s.active_reaction_span = some sp)
    (ht : s.tracer = some t0)
    (he : tr.event_type = reaction_starts) :
    ∃ nm lb hb,
      (lf_tracing_tracepoint s (some tr)).2 =
        [TracerCall.startSpan s.nextSpanId nm,
         TracerCall.setAttrs s.nextSpanId lb,
         TracerCall.setAttrs s.nextSpanId hb,
         TracerCall.endSpan sp] ∧
      (lf_tracing_tracepoint s (some tr)).1.active_reaction_span = some s.nextSpanId ∧
      callPrecedes (TracerCall.startSpan s.nextSpanId nm) (TracerCall.endSpan sp)
        (lf_tracing_tracepoint s (some tr)).2 := by
  refine ⟨reaction_span_name (find_object_description s.table tr.pointer)
      (build_reaction_fqn (find_object_description s.table tr.pointer) tr.dst_id),
    set_reaction_low_cardinality_attributes
      (build_reaction_fqn (find_object_description s.table tr.pointer) tr.dst_id) tr.dst_id
      ((find_object_description s.table tr.pointer).bind fun d => d.description),
    set_common_high_cardinality_attributes tr, ?_, ?_, ?_⟩
  · simp [lf_tracing_tracepoint, hsp, ht, he, reaction_starts, reaction_ends]
  · simp [lf_tracing_tracepoint, hsp, ht, he, reaction_starts, reaction_ends]
  · have hred : (lf_tracing_tracepoint s (some tr)).2 =
        [TracerCall.startSpan s.nextSpanId
           (reaction_span_name (find_object_description s.table tr.pointer)
             (build_reaction_fqn (find_object_description s.table tr.pointer) tr.dst_id)),
         TracerCall.setAttrs s.nextSpanId
           (set_reaction_low_cardinality_attributes
             (build_reaction_fqn (find_object_description s.table tr.pointer) tr.dst_id)
             tr.dst_id
             ((find_object_description s.table tr.pointer).bind fun d => d.description)),
         TracerCall.setAttrs s.nextSpanId (set_common_high_cardinality_attributes tr),
         TracerCall.endSpan sp] := by
      simp [lf_tracing_tracepoint, hsp, ht, he, reaction_starts, reaction_ends]
    rw [hred]
    exact ⟨⟨0, by simp⟩, ⟨3, by simp⟩, by norm_num, rfl, rfl⟩

/-- Adapter state for the C2 witness: span 3 open, next handle 9. -/
def c2wState : TPState := ⟨true, [], some 0, some 3, 0, -1, 9⟩

/-- C2 (witness): the force-close ordering at a concrete open state. -/
theorem C2_force_close_after_open_witness :
    ∃ nm lb hb,
      (lf_tracing_tracepoint c2wState (some ⟨0, 1, 0, 100, 0, 105⟩)).2 =
        [TracerCall.startSpan c2wState.nextSpanId nm,
         TracerCall.setAttrs c2wState.nextSpanId lb,
         TracerCall.setAttrs c2wState.nextSpanId hb,
         TracerCall.endSpan 3] ∧
      (lf_tracing_tracepoint c2wState (some ⟨0, 1, 0, 100, 0, 105⟩)).1.active_reaction_span =
        some c2wState.nextSpanId ∧
      callPrecedes (TracerCall.startSpan c2wState.nextSpanId nm) (TracerCall.endSpan 3)
        (lf_tracing_tracepoint c2wState (some ⟨0, 1, 0, 100, 0, 105⟩)).2 :=
  C2_force_close_after_open c2wState 3 0 ⟨0, 1, 0, 100, 0, 105⟩ rfl rfl rfl

/-- C4: the reaction span display name is the container description followed
by a dot and the decimal reaction index when the subject resolves to a
non-empty description and the index is non-negative; otherwise the bare
description when present and non-empty; otherwise the literal "reaction";
and for an unregistered subject the span is named "reaction" with the
baseline-only low-cardinality batch. -/
theorem C4_span_naming :
    (∀ (d : ObjectDescription) (s : String) (dst : Int),
      d.description = some s → s ≠ "" → 0 ≤ dst →
      reaction_span_name (some d) (build_reaction_fqn (some d) dst) =
        s ++ "." ++ toString dst) ∧
    (∀ (d : ObjectDescription) (s : String) (dst : Int),
      d.description = some s → s ≠ "" → dst < 0 →
      reaction_span_name (some d) (build_reaction_fqn (some d) dst) = s) ∧
    (∀ (desc : Option ObjectDescription) (dst : Int),
      (desc = none ∨ ∃ d, desc = some d ∧ (d.description = none ∨ d.description = some "")) →
      reaction_span_name desc (build_reaction_fqn desc dst) = "reaction") ∧
    (∀ (st : TPState) (t0 : Nat) (tr : trace_record_nodeps_t),
      st.tracer = some t0 → tr.event_type = reaction_starts →
      find_object_description st.table tr.pointer = none →
      (lf_tracing_tracepoint st (some tr)).2.take 2 =
        [TracerCall.startSpan st.nextSpanId "reaction",
         TracerCall.setAttrs st.nextSpanId
           [("xronos.element_type", AttrValue.str "reaction"),
            ("xronos.schema.low_cardinality_attributes",
             AttrValue.strList ["xronos.element_type"])]]) := by
  refine ⟨?_, ?_, ?_, ?_⟩
  · intro d s dst hd hs hdst
    simp [build_reaction_fqn, reaction_span_name, hd, hs, not_lt.mpr hdst]
  · intro d s dst hd hs hdst
    simp [build_reaction_fqn, reaction_span_name, hd, hs, hdst]
  · intro desc dst hdesc
    rcases hdesc with h | ⟨d, hd, hdd⟩
    · simp [build_reaction_fqn, reaction_span_name, h]
    · rcases hdd with h2 | h2 <;> simp [build_reaction_fqn, reaction_span_name, hd, h2]
  · intro st t0 tr ht he hfind
    rcases hsp : st.active_reaction_span with _ | sp <;>
      simp [lf_tracing_tracepoint, ht, he, hfind, hsp, reaction_starts, reaction_ends,
        build_reaction_fqn, reaction_span_name, set_reaction_low_cardinality_attributes,
        set_low_cardinality_schema_attr]

/-- Adapter state for the C4 witness: empty registry, tracer initialized,
slot Idle. -/
def c4State : TPState := ⟨true, [], some 0, none, 0, -1, 0⟩

/-- C4 (witness): "Parent.Child" with index 2 names the span
"Parent.Child.2"; an unregistered subject names it "reaction" with the
baseline-only batch. -/
theorem C4_span_naming_witness :
    reaction_span_name (some ⟨1, some "Parent.Child"⟩)
      (build_reaction_fqn (some ⟨1, some "Parent.Child"⟩) 2) = "Parent.Child.2" ∧
    reaction_span_name none (build_reaction_fqn none 0) = "reaction" ∧
    (lf_tracing_tracepoint c4State (some ⟨0, 999, 0, 0, 0, 0⟩)).2.take 2 =
      [TracerCall.startSpan 0 "reaction",
       TracerCall.setAttrs 0
         [("xronos.element_type", AttrValue.str "reaction"),
          ("xronos.schema.low_cardinality_attributes",
           AttrValue.strList ["xronos.element_type"])]] :=
  ⟨(C4_span_naming.1 ⟨1, some "Parent.Child"⟩ "Parent.Child" 2 rfl (by decide)
      (by decide)).trans (by decide),
   C4_span_naming.2.2.1 none 0 (Or.inl rfl),
   C4_span_naming.2.2.2 c4State 0 ⟨0, 999, 0, 0, 0, 0⟩ rfl rfl rfl⟩

/-- C6: a reaction_ends tracepoint always leaves the slot Idle; while a
span is open it ends exactly that stored handle whether or not the ending
record's subject or index matches the one stored at open time (the result
is the same for any two reaction_ends records); while Idle it ends
nothing. -/
theorem C6_end_any_end (s : TPState) (tr tr' : trace_record_nodeps_t)
    (h : tr.event_type = reaction_ends) (h' : tr'.event_type = reaction_ends) :
    (lf_tracing_tracepoint s (some tr)).1.active_reaction_span = none ∧
    (∀ sp, s.active_reaction_span = some sp →
      TracerCall.endSpan sp ∈ (lf_tracing_tracepoint s (some tr)).2) ∧
    (s.active_reaction_span = none →
      ∀ sp, TracerCall.endSpan sp ∉ (lf_tracing_tracepoint s (some tr)).2) ∧
    lf_tracing_tracepoint s (some tr) = lf_tracing_tracepoint s (some tr') := by
  refine ⟨lf_tracing_tracepoint_ends_slot s tr h, ?_, ?_, ?_⟩
  · intro sp hsp
    by_cases ht : s.tracer.isNone <;>
      simp_all [lf_tracing_tracepoint, reaction_starts, reaction_ends]
  · intro hnone sp
    by_cases ht : s.tracer.isNone <;>
      simp_all [lf_tracing_tracepoint, reaction_starts, reaction_ends]
  · by_cases ht : s.tracer.isNone <;>
      rcases hsp : s.active_reaction_span with _ | sp <;>
      simp_all [lf_tracing_tracepoint, reaction_starts, reaction_ends]

/-- Adapter state for the C6 witness: span 4 open for subject 7, index 2. -/
def c6State : TPState := ⟨true, [], some 0, some 4, 7, 2, 9⟩

/-- C6 (witness): a mismatched reaction_ends (subject 8, index 5) closes the
stored span 4, leaves the slot Idle, and behaves identically to the matched
record (subject 7, index 2). -/
theorem C6_end_any_end_witness :
    (lf_tracing_tracepoint c6State (some ⟨1, 8, 5, 0, 0, 0⟩)).1.active_reaction_span = none ∧
    TracerCall.endSpan 4 ∈ (lf_tracing_tracepoint c6State (some ⟨1, 8, 5, 0, 0, 0⟩)).2 ∧
    lf_tracing_tracepoint c6State (some ⟨1, 8, 5, 0, 0, 0⟩) =
      lf_tracing_tracepoint c6State (some ⟨1, 7, 2, 0, 0, 0⟩) := by
  obtain ⟨a, b, _, d⟩ :=
    C6_end_any_end c6State ⟨1, 8, 5, 0, 0, 0⟩ ⟨1, 7, 2, 0, 0, 0⟩ rfl rfl
  exact ⟨a, b 4 rfl, d⟩

/-- Adapter state for the C8 counterexample: reaction-only mode with the
tracer handle still null. -/
def c8State : TPState := ⟨true, [], none, none, 0, -1, 0⟩

/-- C8 (counterexample): with a null tracer handle, even a rejected
non-reaction event mutates subsystem state (the tracer slot is lazily
filled) and issues a capability call before the filter check, so the
processing is not free of side effects. -/
theorem C8_counterexample :
    (lf_tracing_tracepoint c8State (some ⟨2, 0, 0, 0, 0, 0⟩)).1.tracer ≠ c8State.tracer ∧
    (lf_tracing_tracepoint c8State (some ⟨2, 0, 0, 0, 0, 0⟩)).2 ≠ [] := by
  decide

/-- C8 (amended): once the tracer handle is initialized (as global init
does), reaction-only mode makes every non-reaction tracepoint and every
null record an exact no-op — no span, no state change, no capability call —
for every such input and on arbitrarily repeated submission; with a null
tracer handle the only deviation is the one-time lazy tracer
initialization. -/
theorem C8_filter_noop (s : TPState) (t0 : Nat)
    (ht : s.tracer = some t0) (hpol : s.trace_only_reactions = true) :
    (∀ tr : trace_record_nodeps_t,
      tr.event_type ≠ reaction_starts → tr.event_type ≠ reaction_ends →
      lf_tracing_tracepoint s (some tr) = (s, [])) ∧
    lf_tracing_tracepoint s none = (s, []) ∧
    (∀ (tr : trace_record_nodeps_t) (n : Nat),
      tr.event_type ≠ reaction_starts → tr.event_type ≠ reaction_ends →
      runTrace s (List.replicate n (some tr)) = (s, [])) := by
  have hstep : ∀ tr : trace_record_nodeps_t,
      tr.event_type ≠ reaction_starts → tr.event_type ≠ reaction_ends →
      lf_tracing_tracepoint s (some tr) = (s, []) := by
    intro tr h1 h2
    simp [lf_tracing_tracepoint, ht, hpol, h1, h2]
  refine ⟨hstep, by simp [lf_tracing_tracepoint, ht], ?_⟩
  intro tr n h1 h2
  induction n with
  | zero => simp [runTrace]
  | succ k ihk => simp [List.replicate_succ, runTrace, hstep tr h1 h2, ihk]

/-- Adapter state for the C8 witness: tracer initialized, reaction-only. -/
def c8wState : TPState := ⟨true, [], some 0, none, 0, -1, 0⟩

/-- C8 (witness): a concrete non-reaction event, a null record, and a
threefold resubmission are all exact no-ops. -/
theorem C8_filter_noop_witness :
    lf_tracing_tracepoint c8wState (some ⟨2, 0, 0, 0, 0, 0⟩) = (c8wState, []) ∧
    lf_tracing_tracepoint c8wState none = (c8wState, []) ∧
    runTrace c8wState (List.replicate 3 (some ⟨2, 0, 0, 0, 0, 0⟩)) = (c8wState, []) := by
  obtain ⟨a, b, c⟩ := C8_filter_noop c8wState 0 rfl rfl
  exact ⟨a ⟨2, 0, 0, 0, 0, 0⟩ (by decide) (by decide), b,
         c ⟨2, 0, 0, 0, 0, 0⟩ 3 (by decide) (by decide)⟩

/-- C3 (counterexample): the schema key list does not take four distinct
values over the four flag combinations; container-present without an FQN
yields the same baseline list as neither present, so only three distinct
outputs occur. -/
theorem C3_schema_keys_not_four_distinct :
    set_low_cardinality_schema_attr false true = set_low_cardinality_schema_attr false false ∧
    ([set_low_cardinality_schema_attr true true,
      set_low_cardinality_schema_attr true false,
      set_low_cardinality_schema_attr false true,
      set_low_cardinality_schema_attr false false].dedup.length = 3) := by
  decide

/-- C3 (amended): the schema key list is a deterministic function of the two
flags with exactly three distinct outputs over the four combinations: both
flags set gives the full four-key list, fqn without container gives the
three-key list, and the two fqn-absent combinations both give the baseline
single-key list. -/
theorem C3_schema_keys_table :
    ([set_low_cardinality_schema_attr true true,
      set_low_cardinality_schema_attr true false,
      set_low_cardinality_schema_attr false true,
      set_low_cardinality_schema_attr false false].dedup.length = 3) ∧
    set_low_cardinality_schema_attr true true =
      ["xronos.element_type", "xronos.fqn", "xronos.name", "xronos.container_fqn"] ∧
    set_low_cardinality_schema_attr true false =
      ["xronos.element_type", "xronos.fqn", "xronos.name"] ∧
    set_low_cardinality_schema_attr false false = ["xronos.element_type"] ∧
    set_low_cardinality_schema_attr false true = ["xronos.element_type"] := by
  decide

/-- C5 (amended): a registration whose identity pointer is non-null and not
already present in the table, performed below capacity, is immediately
resolvable to the registered description; once the table is full every
further registration leaves the table, and hence every lookup, unchanged. -/
theorem C5_registry :
    (∀ (table : List ObjectDescription) (d : ObjectDescription),
      table.length < TRACE_OBJECT_TABLE_SIZE → d.pointer ≠ 0 →
      (∀ e ∈ table, e.pointer ≠ d.pointer) →
      find_object_description (lf_tracing_register_trace_event table d) d.pointer = some d) ∧
    (∀ (table : List ObjectDescription) (d : ObjectDescription),
      TRACE_OBJECT_TABLE_SIZE ≤ table.length →
      lf_tracing_register_trace_event table d = table ∧
      ∀ p, find_object_description (lf_tracing_register_trace_event table d) p =
        find_object_description table p) := by
  constructor
  · intro table d hcap hnz hfresh
    unfold lf_tracing_register_trace_event
    rw [if_pos hcap]
    unfold find_object_description
    rw [if_neg hnz]
    clear hcap
    induction table with
    | nil => simp
    | cons e rest ih =>
      have he : (e.pointer == d.pointer) = false := by
        simp only [beq_eq_false_iff_ne, ne_eq]
        exact hfresh e (by simp)
      simp only [List.cons_append, List.find?_cons, he]
      exact ih (fun e' he' => hfresh e' (by simp [he']))
  · intro table d hfull
    have h : lf_tracing_register_trace_event table d = table := by
      unfold lf_tracing_register_trace_event
      rw [if_neg (by omega)]
    exact ⟨h, fun p => by rw [h]⟩

/-- C5 (witness): concrete instantiations of both parts of C5_registry. -/
theorem C5_registry_witness :
    find_object_description
      (lf_tracing_register_trace_event [] ⟨1, some "x"⟩) 1 = some ⟨1, some "x"⟩ ∧
    lf_tracing_register_trace_event
      (List.replicate 1024 ⟨1, some "x"⟩) ⟨2, some "y"⟩ =
      List.replicate 1024 ⟨1, some "x"⟩ := by
  refine ⟨C5_registry.1 [] ⟨1, some "x"⟩ (by decide) (by decide) (by simp), ?_⟩
  exact (C5_registry.2 (List.replicate 1024 ⟨1, some "x"⟩) ⟨2, some "y"⟩
    (by rw [List.length_replicate]; norm_num [TRACE_OBJECT_TABLE_SIZE])).1

/-- C5 (counterexample): registering the same identity pointer twice with
different descriptions, both below capacity, makes the immediate resolve of
the second registration return the first description, not the registered
one. -/
theorem C5_registry_counterexample :
    ([(⟨1, some "a"⟩ : ObjectDescription)]).length < TRACE_OBJECT_TABLE_SIZE ∧
    find_object_description
      (lf_tracing_register_trace_event
        (lf_tracing_register_trace_event [] ⟨1, some "a"⟩) ⟨1, some "b"⟩) 1 ≠
      some ⟨1, some "b"⟩ := by
  decide

/-- C7: the high-cardinality batch always carries exactly the three keys
timestamp, microstep and lag; the lag value is the int64 difference
physical_time minus logical_time, which is the mathematical difference
(no clamping) whenever that difference is representable in int64. -/
theorem C7_high_cardinality_lag :
    (∀ tr : trace_record_nodeps_t,
      attrKeys (set_common_high_cardinality_attributes tr) =
        ["xronos.timestamp", "xronos.microstep", "xronos.lag"] ∧
      attrLookup (set_common_high_cardinality_attributes tr) "xronos.lag" =
        some (AttrValue.i64 (int64Wrap (tr.physical_time - tr.logical_time)))) ∧
    (∀ tr : trace_record_nodeps_t,
      -(2 ^ 63) ≤ tr.physical_time - tr.logical_time →
      tr.physical_time - tr.logical_time < 2 ^ 63 →
      attrLookup (set_common_high_cardinality_attributes tr) "xronos.lag" =
        some (AttrValue.i64 (tr.physical_time - tr.logical_time))) := by
  constructor
  · intro tr
    exact ⟨rfl, rfl⟩
  · intro tr h1 h2
    have : attrLookup (set_common_high_cardinality_attributes tr) "xronos.lag" =
        some (AttrValue.i64 (int64Wrap (tr.physical_time - tr.logical_time))) := rfl
    rw [this, int64Wrap_of_mem_range _ h1 h2]

/-- C7 (witness): logical_time 1000 and physical_time 950 give lag -50,
not clamped to zero. -/
theorem C7_high_cardinality_lag_witness :
    attrLookup
      (set_common_high_cardinality_attributes ⟨0, 1, 2, 1000, 0, 950⟩) "xronos.lag" =
      some (AttrValue.i64 (-50)) := by
  have h := C7_high_cardinality_lag.2 ⟨0, 1, 2, 1000, 0, 950⟩ (by norm_num) (by norm_num)
  exact h

/-- C9: configure_exporter records the endpoint unchanged and sets the
transport-insecurity value to "false" exactly when the endpoint string
starts with "https://", "true" for every other endpoint string. -/
theorem C9_endpoint_security (e : String) :
    configure_exporter (some e) =
      some (e, if e.startsWith "https://" then "false" else "true") ∧
    ((configure_exporter (some e)).map Prod.snd = some "false" ↔
      e.startsWith "https://" = true) := by
  refine ⟨rfl, ?_⟩
  by_cases h : e.startsWith "https://" <;>
    simp [configure_exporter, h]

/-- C10: event-kind name lookup is total: for every integer in range it is
the corresponding entry of the event-name table, and for every integer
outside the range it is the literal "Unknown event" with no out-of-bounds
access. -/
theorem C10_event_name_total (names : List String) (event_type : Int) :
    (∀ (h1 : 0 ≤ event_type) (h2 : event_type < (names.length : Int)),
      get_event_type_name names event_type =
        names.get ⟨event_type.toNat, by omega⟩) ∧
    (event_type < 0 ∨ (names.length : Int) ≤ event_type →
      get_event_type_name names event_type = "Unknown event") := by
  constructor
  · intro h1 h2
    unfold get_event_type_name
    rw [if_pos ⟨h1, h2⟩]
    have hlt : event_type.toNat < names.length := by omega
    simp [List.getD_eq_getElem?_getD, List.getElem?_eq_getElem hlt, List.get_eq_getElem]
  · intro h
    unfold get_event_type_name
    rw [if_neg]
    rintro ⟨h1, h2⟩
    rcases h with h | h <;> omega

/-- C10 (witness): lookup on a concrete two-entry table, in range and out
of range. -/
theorem C10_event_name_total_witness :
    get_event_type_name ["Reaction starts", "Reaction ends"] 1 = "Reaction ends" ∧
    get_event_type_name ["Reaction starts", "Reaction ends"] 5 = "Unknown event" := by
  constructor
  · have h := (C10_event_name_total ["Reaction starts", "Reaction ends"] 1).1
      (by norm_num) (by norm_num)
    simpa using h
  · exact (C10_event_name_total ["Reaction starts", "Reaction ends"] 5).2
      (Or.inr (by norm_num))

end LfTraceXronos
